/-
Verification of the rs232-to-pdu gateway against its natural-language
specification.

The file shallow-embeds the parts of the Python source that the claims
C1..C10 are about:

  * the SNMP outcome classification of `TransportSnmp.get_outlet_state` /
    `set_outlet_state` (transport/snmp.py) and the retry loop
    `BaseDeviceCmd.run_cmd` (requests/basedevicecmd.py);
  * the retry loop `CommandWithRetry.send_command` (commands/retries.py);
  * the priority queue `QueueRunner.enqueue` / `dequeue` (rs232topdu.py);
  * the command parser (`BaseParser` primitives from nrparsers/parse_base.py
    together with `ParserKvmSequence.parse` from ser2snmp/parsers/parse_kvmseq.py);
  * the serial read-drain cycles `Rs232ToPdu.serial_conn_read` (rs232topdu.py)
    and `serial_reader` (rs232_to_pdu/__main__.py);
  * the manual power-cycle paths `Rs232ToPdu.outlet_manual_toggle`
    (rs232topdu.py) and `Powerchange` (rs232_to_pdu/powerchange.py);
  * the healthcheck submission paths (`healthcheck_enqueue`, the startup loop
    of rs232_to_pdu/__main__.py, rs232_to_pdu/healthcheck.py);
  * SNMP v1/v2c community selection (transport/snmp.py, device.py) and the
    request construction of rs232tripplite.py.

Python machine-level details that do not matter to the claims (logging
destinations, the pysnmp object wrappers, asyncio plumbing) are abstracted:
an SNMP attempt outcome is its pair of truthiness flags, an enqueue is a
list append, cooperative awaits are trace events.
-/
import Mathlib

/- ----------------------------------------------------------------- -/
/- Section 1: SNMP outcome classification and the two retry loops    -/
/- ----------------------------------------------------------------- -/

/-- Truthiness of the pysnmp `(errorIndication, errorStatus)` pair returned
by `getCmd` / `setCmd`: `errIndicator = true` means the SNMP engine reported
a transport/encoding error (the object is truthy), `errStatus = true` means
the PDU reported a non-zero status error. -/
structure SnmpOutcome where
  errIndicator : Bool
  errStatus : Bool
deriving DecidableEq, Repr

/-- transport/snmp.py, `TransportSnmp.get_outlet_state` and
`set_outlet_state`: both return `not (err_indicator or err_status)` as the
`ok` component of their result pair. -/
def transport_ok (r : SnmpOutcome) : Bool :=
  !(r.errIndicator || r.errStatus)

/-- One attempt as observed by `BaseDeviceCmd.run_cmd`: either the awaited
command timed out (`asyncio.timeout` raised `TimeoutError`) or it completed
with a result 4-tuple, of which only the truthiness of the first two
components matters to the control flow. -/
inductive Attempt where
  | timeout
  | result (r : SnmpOutcome)
deriving DecidableEq, Repr

/-- requests/basedevicecmd.py, `BaseDeviceCmd.run_cmd`, line 64: the test
`if not err_indicator or err_status:` — by Python precedence this is
`(not err_indicator) or err_status`. -/
def runCmdSuccessTest (r : SnmpOutcome) : Bool :=
  !r.errIndicator || r.errStatus

/-- Observable events of `BaseDeviceCmd.run_cmd`: the four handler
invocations and the unconditional `await asyncio.sleep(self.delay)` at the
end of each loop iteration. -/
inductive RunCmdEv where
  | hSuccess
  | hCmdError
  | hTimeout
  | hMaxAttempts
  | sleep (d : Nat)
deriving DecidableEq, Repr

/-- The loop body of `run_cmd`, iterating `for _attempt in range(max_attempts)`
with `i` the next attempt index and the second argument the remaining
iteration count.  Each iteration: await the command under a timeout; on a
completed result, if `not err_indicator or err_status` invoke the success
handler and return True; otherwise invoke the error handler; on
`TimeoutError` invoke the timeout handler; then (in both non-returning
cases) `await asyncio.sleep(self.delay)`.  When the loop exhausts, invoke
the max-attempts handler and return False. -/
def runCmdFrom (delay : Nat) (f : Nat → Attempt) : Nat → Nat → Bool × List RunCmdEv
  | _, 0 => (false, [RunCmdEv.hMaxAttempts])
  | i, n + 1 =>
    match f i with
    | Attempt.timeout =>
      let rest := runCmdFrom delay f (i + 1) n
      (rest.1, RunCmdEv.hTimeout :: RunCmdEv.sleep delay :: rest.2)
    | Attempt.result r =>
      if runCmdSuccessTest r then (true, [RunCmdEv.hSuccess])
      else
        let rest := runCmdFrom delay f (i + 1) n
        (rest.1, RunCmdEv.hCmdError :: RunCmdEv.sleep delay :: rest.2)

/-- `BaseDeviceCmd.run_cmd` with attempt outcomes given by `f`: returns the
boolean result and the trace of handler/sleep events. -/
def runCmd (delay maxAttempts : Nat) (f : Nat → Attempt) : Bool × List RunCmdEv :=
  runCmdFrom delay f 0 maxAttempts

/-- One attempt as observed by `CommandWithRetry.send_command`
(commands/retries.py): the transport call reported `ok` (`success` true),
reported a failure (`success` false), or timed out. -/
inductive Outcome where
  | ok
  | fail
  | timeout
deriving DecidableEq, Repr

/-- Observable events of `CommandWithRetry.send_command`: the four handler
invocations.  The source contains no sleep call anywhere in `send_command`
(the `delay` constructor argument is stored in `self.delay` and never
used), so no sleep event can appear in a trace. -/
inductive SendCmdEv where
  | hSuccess
  | hFailure
  | hTimeout
  | hMaxReached
  | sleep (d : Nat)
deriving DecidableEq, Repr

/-- The loop body of `send_command`, iterating
`for __attempt in range(self.max_attempts)`; returns (result, number of
transport calls issued, event trace).  A timed-out attempt still issued its
transport call (the call was awaited and then cancelled). -/
def send_command_from (f : Nat → Outcome) : Nat → Nat → Bool × Nat × List SendCmdEv
  | _, 0 => (false, 0, [SendCmdEv.hMaxReached])
  | i, n + 1 =>
    match f i with
    | Outcome.ok => (true, 1, [SendCmdEv.hSuccess])
    | Outcome.fail =>
      let rest := send_command_from f (i + 1) n
      (rest.1, rest.2.1 + 1, SendCmdEv.hFailure :: rest.2.2)
    | Outcome.timeout =>
      let rest := send_command_from f (i + 1) n
      (rest.1, rest.2.1 + 1, SendCmdEv.hTimeout :: rest.2.2)

/-- `CommandWithRetry.send_command` with attempt outcomes given by `f`. -/
def send_command (maxAttempts : Nat) (f : Nat → Outcome) : Bool × Nat × List SendCmdEv :=
  send_command_from f 0 maxAttempts

/- ----------------------------------------------------------------- -/
/- Section 2: QueueRunner priority queue (rs232topdu.py)             -/
/- ----------------------------------------------------------------- -/

/-- State of `QueueRunner`: the priority counter (initially 0) and the
contents of the `asyncio.PriorityQueue` as the list of `(priority, item)`
pairs in insertion order. -/
structure QueueState (α : Type) where
  prioCounter : Nat
  queue : List (Int × α)

/-- `QueueRunner.enqueue`: the key is `-self.prio_counter` when
`high_prio` and `self.prio_counter` otherwise; the counter is then
incremented and the pair is put into the queue. -/
def qr_enqueue {α : Type} (s : QueueState α) (x : α) (highPrio : Bool) : QueueState α :=
  let priority : Int := if highPrio then -(s.prioCounter : Int) else (s.prioCounter : Int)
  { prioCounter := s.prioCounter + 1, queue := s.queue ++ [(priority, x)] }

/-- A whole submission sequence, items paired with their `high_prio` flag. -/
def qr_enqueue_all {α : Type} (s : QueueState α) : List (α × Bool) → QueueState α
  | [] => s
  | (x, hp) :: rest => qr_enqueue_all (qr_enqueue s x hp) rest

/-- `asyncio.PriorityQueue.get`: remove and return the entry with the least
key (first occurrence on ties; ties never arise here because all keys in a
`QueueRunner` queue are distinct). -/
def pop_min {α : Type} : List (Int × α) → Option ((Int × α) × List (Int × α))
  | [] => none
  | e :: rest =>
    match pop_min rest with
    | none => some (e, [])
    | some (m, rest') => if e.1 ≤ m.1 then some (e, rest) else some (m, e :: rest')

/-- Fuel-indexed consumer loop of `QueueRunner.dequeue`: repeatedly pop the
least entry and run it; with fuel at least the queue length this drains the
queue completely. -/
def drain_fuel {α : Type} : Nat → List (Int × α) → List α
  | 0, _ => []
  | n + 1, q =>
    match pop_min q with
    | none => []
    | some (m, rest) => m.2 :: drain_fuel n rest

/-- Order in which the single consumer of `QueueRunner.dequeue` runs the
items currently in the queue. -/
def drain {α : Type} (q : List (Int × α)) : List α :=
  drain_fuel q.length q

/-- Items submitted with `high_prio = True`, in submission order. -/
def high_subs {α : Type} (subs : List (α × Bool)) : List α :=
  (subs.filter (fun p => p.2)).map (fun p => p.1)

/-- Items submitted with `high_prio = False`, in submission order. -/
def low_subs {α : Type} (subs : List (α × Bool)) : List α :=
  (subs.filter (fun p => !p.2)).map (fun p => p.1)

/- ----------------------------------------------------------------- -/
/- Section 3: the command parser                                     -/
/-   BaseParser primitives from nrparsers/parse_base.py and           -/
/-   ParserKvmSequence.parse from ser2snmp/parsers/parse_kvmseq.py    -/
/- ----------------------------------------------------------------- -/

/-- A Python exception escaping the parser: either the parser's own
`ParseError(text-position, message)` (the `text` payload is dropped here)
or an `AttributeError` raised by reading an attribute that does not exist
on the object. -/
inductive PyError where
  | parseError (pos : Nat) (msg : String)
  | attributeError (attr : String)
deriving DecidableEq, Repr

/-- `BaseParser.remove_leading_whitespace`: advance the cursor past every
leading space character (`whitespace_tokens = [' ']`), stopping at the end
of the text; returns the new cursor.  The Python while-loop is rendered as
the length of the maximal run of spaces at the cursor. -/
def remove_leading_whitespace (text : List Char) (pos : Nat) : Nat :=
  pos + ((text.drop pos).takeWhile (fun c => c = ' ')).length

/-- `BaseParser.keyword`: after removing leading whitespace (all call sites
in `ParserKvmSequence.parse` use the default `remove_leading_whitespace=True`),
try the keywords in order; the first whose characters equal the text slice
`[pos : pos + len]` advances the cursor by its length and is returned;
otherwise a `ParseError` at the cursor is raised.  Python slicing truncates
at the end of the text exactly like `List.take`. -/
def keyword (text : List Char) (pos : Nat) (kws : List (List Char)) :
    Except PyError (List Char × Nat) :=
  let p := remove_leading_whitespace text pos
  match kws.find? (fun kw => (text.drop p).take kw.length == kw) with
  | some kw => Except.ok (kw, p + kw.length)
  | none => Except.error (PyError.parseError p "No keywords found")

/-- Decimal value of a digit run, as computed by Python `int(''.join(chars))`. -/
def digits_value (ds : List Char) : Nat :=
  ds.foldl (fun a c => a * 10 + (c.toNat - '0'.toNat)) 0

/-- `BaseParser.search_positive_number`: remove leading whitespace, consume
the maximal run of digit characters; if the run is empty raise `ParseError`
at the cursor, otherwise advance the cursor past the run and return the
decimal value.  (Python `str.isnumeric` agrees with `Char.isDigit` on the
ASCII inputs this protocol carries.) -/
def search_positive_number (text : List Char) (pos : Nat) :
    Except PyError (Nat × Nat) :=
  let p := remove_leading_whitespace text pos
  let ds := (text.drop p).takeWhile Char.isDigit
  if ds.isEmpty then Except.error (PyError.parseError p "No number found")
  else Except.ok (digits_value ds, p + ds.length)

/-- `BaseParser.search_uint8`: parse a positive number; if its value exceeds
256 the source resets `self.text_pos` and then calls
`logger.error('...', self.text, self.text_post)` — `BaseParser` has no
attribute `text_post` (the field is `text_pos`), so this logging call
raises `AttributeError` and the `raise ParseError(...)` on the following
line is never reached. -/
def search_uint8 (text : List Char) (pos : Nat) : Except PyError (Nat × Nat) :=
  match search_positive_number text pos with
  | Except.error e => Except.error e
  | Except.ok (n, p) =>
    if n > 256 then Except.error (PyError.attributeError "text_post")
    else Except.ok (n, p)

/-- `ParserKvmSequence.parse` (ser2snmp/parsers/parse_kvmseq.py): match one
of the command keywords `'on', 'of', 'cy', 'quit', ''` (the empty keyword
always matches), remove leading whitespace, then dispatch: `on`/`of`/`cy`
read a bank and a port via `search_uint8` each, `quit` and the empty
command read nothing; finally the segment must be terminated by the keyword
`'\r'`.  Returns `(command, bank?, port?)`. -/
def parse_kvm_sequence (input : List Char) :
    Except PyError (List Char × Option Nat × Option Nat) :=
  match keyword input 0 [['o','n'], ['o','f'], ['c','y'], ['q','u','i','t'], []] with
  | Except.error e => Except.error e
  | Except.ok (cmd, p1) =>
    let p2 := remove_leading_whitespace input p1
    if cmd == ['q','u','i','t'] || cmd == [] then
      match keyword input p2 [['\r']] with
      | Except.error e => Except.error e
      | Except.ok _ => Except.ok (cmd, none, none)
    else
      match search_uint8 input p2 with
      | Except.error e => Except.error e
      | Except.ok (bank, p3) =>
        match search_uint8 input p3 with
        | Except.error e => Except.error e
        | Except.ok (port, p4) =>
          match keyword input p4 [['\r']] with
          | Except.error e => Except.error e
          | Except.ok _ => Except.ok (cmd, some bank, some port)

/- ----------------------------------------------------------------- -/
/- Section 4: the serial read-drain cycles                           -/
/-   Rs232ToPdu.serial_conn_read (rs232topdu.py) and serial_reader    -/
/-   (rs232_to_pdu/__main__.py).  The parser module imported by both   -/
/-   (rs232_to_pdu.parsers) is not in the tree; the in-tree            -/
/-   ser2snmp/nrparsers implementation embedded above (same command    -/
/-   grammar, same \r-terminated segments) is used in its place.       -/
/- ----------------------------------------------------------------- -/

/-- A power-change submission produced by a drain cycle:
`(command, bank, port)` as parsed from one segment. -/
structure KvmSub where
  cmd : List Char
  bank : Nat
  port : Nat
deriving DecidableEq, Repr

/-- Loop of `serial_reader` (rs232_to_pdu/__main__.py): enumerate the
buffer; at every `'\r'` parse the slice `buffer.data[chars_read:cursor+1]`.
On `ParseError` only a warning is logged and — in this implementation —
`chars_read` is NOT advanced; on a successful parse, quit/empty sequences
are logged and any other command becomes a submission, and `chars_read`
becomes `cursor + 1`.  An `AttributeError` from the parser is not caught
and escapes the reader.  Returns `(chars_read, submissions)`. -/
def serialReaderGo (data : List Char) :
    List Char → Nat → Nat → List KvmSub → Except PyError (Nat × List KvmSub)
  | [], _, charsRead, subs => Except.ok (charsRead, subs)
  | c :: restChars, cursor, charsRead, subs =>
    if c = '\r' then
      match parse_kvm_sequence ((data.drop charsRead).take (cursor + 1 - charsRead)) with
      | Except.error (PyError.parseError _ _) =>
        serialReaderGo data restChars (cursor + 1) charsRead subs
      | Except.error e => Except.error e
      | Except.ok (cmd, b, p) =>
        let subs' := if cmd == ['q','u','i','t'] || cmd == [] then subs
                     else subs ++ [⟨cmd, b.getD 0, p.getD 0⟩]
        serialReaderGo data restChars (cursor + 1) (cursor + 1) subs'
    else
      serialReaderGo data restChars (cursor + 1) charsRead subs

/-- One read-drain cycle of `serial_reader`: append the drained chunk to the
buffer, run the scan loop, and keep `buffer.data = buffer.data[:chars_read]`
— the source keeps the PREFIX up to `chars_read` (`List.take`), not the
tail after it.  Returns the new buffer and the submissions of this cycle. -/
def serial_reader_cycle (buffer chunk : List Char) :
    Except PyError (List Char × List KvmSub) :=
  let data := buffer ++ chunk
  match serialReaderGo data data 0 0 [] with
  | Except.error e => Except.error e
  | Except.ok (charsRead, subs) => Except.ok (data.take charsRead, subs)

/-- Loop of `Rs232ToPdu.serial_conn_read` (rs232topdu.py): enumerate the
buffer; at every `'\r'` hand the slice
`read_buffer[curr_seq_start_pos:cursor_pos+1]` to `buffer_parse` — which
catches `ParseError` itself — and advance `curr_seq_start_pos` to
`cursor_pos + 1` whether or not the parse succeeded.  Quit/empty parses are
logged, other commands become submissions (`parsed_tokens_consume`).
Returns `(curr_seq_start_pos, submissions)`. -/
def serialConnReadGo (data : List Char) :
    List Char → Nat → Nat → List KvmSub → Except PyError (Nat × List KvmSub)
  | [], _, seqStart, subs => Except.ok (seqStart, subs)
  | c :: restChars, cursor, seqStart, subs =>
    if c = '\r' then
      match parse_kvm_sequence ((data.drop seqStart).take (cursor + 1 - seqStart)) with
      | Except.error (PyError.parseError _ _) =>
        serialConnReadGo data restChars (cursor + 1) (cursor + 1) subs
      | Except.error e => Except.error e
      | Except.ok (cmd, b, p) =>
        let subs' := if cmd == ['q','u','i','t'] || cmd == [] then subs
                     else subs ++ [⟨cmd, b.getD 0, p.getD 0⟩]
        serialConnReadGo data restChars (cursor + 1) (cursor + 1) subs'
    else
      serialConnReadGo data restChars (cursor + 1) seqStart subs

/-- One read-drain cycle of `serial_conn_read`: append the drained chunk,
run the scan loop, then `del self.read_buffer[:curr_seq_start_pos]` — the
parsed prefix is deleted and only the tail after the last `'\r'` remains
(`List.drop`). -/
def serial_conn_read_cycle (buffer chunk : List Char) :
    Except PyError (List Char × List KvmSub) :=
  let data := buffer ++ chunk
  match serialConnReadGo data data 0 0 [] with
  | Except.error e => Except.error e
  | Except.ok (seqStart, subs) => Except.ok (data.drop seqStart, subs)

/- ----------------------------------------------------------------- -/
/- Section 5: manual power-cycle synthesis                           -/
/-   Rs232ToPdu.outlet_manual_toggle (rs232topdu.py) and Powerchange  -/
/-   (rs232_to_pdu/powerchange.py)                                    -/
/- ----------------------------------------------------------------- -/

/-- Submission-path events of the rs232topdu implementation: an enqueue of
one power-change request (device, outlet, verb, high-priority flag) or a
cooperative `await asyncio.sleep`. -/
inductive TogEv where
  | enq (dev outlet verb : String) (highPrio : Bool)
  | sleep (d : Nat)
deriving DecidableEq, Repr

/-- Submission-path context of `Rs232ToPdu`: the command counter and the
trace of events performed so far. -/
structure SubCtx where
  cmdCounter : Nat
  events : List TogEv

/-- `Rs232ToPdu.power_change_enqueue`: increment `cmd_counter` and enqueue
one low-priority (`False`) power-change request for the given device,
outlet and state. -/
def power_change_enqueue (ctx : SubCtx) (dev outlet verb : String) : SubCtx :=
  { cmdCounter := ctx.cmdCounter + 1,
    events := ctx.events ++ [TogEv.enq dev outlet verb false] }

/-- A cooperative sleep on the submission path. -/
def submission_sleep (ctx : SubCtx) (d : Nat) : SubCtx :=
  { ctx with events := ctx.events ++ [TogEv.sleep d] }

/-- `Rs232ToPdu.outlet_manual_toggle`: enqueue `'of'`, cooperatively sleep
`self.toggle_delay` on the submission path, enqueue `'on'`. -/
def outlet_manual_toggle (ctx : SubCtx) (dev outlet : String) (toggleDelay : Nat) : SubCtx :=
  power_change_enqueue
    (submission_sleep (power_change_enqueue ctx dev outlet "of") toggleDelay)
    dev outlet "on"

/-- An action enqueued by `Powerchange.__init__`
(rs232_to_pdu/powerchange.py): either `functools.partial(self.__send, state)`
or `functools.partial(self.__cy, cy_delay)`. -/
inductive PCAction where
  | send (state : String)
  | cy (delay : Nat)
deriving DecidableEq, Repr

/-- `Powerchange.__init__`: when `state == 'cy'` and `'cy'` is not a key of
`device.power_states`, a single composite `__cy` action is enqueued into
the task queue; otherwise a single `__send state` action is enqueued.  The
constructor performs exactly one enqueue and never sleeps. -/
def powerchange_submit (state : String) (hasCy : Bool) (cyDelay : Nat) : List PCAction :=
  if state = "cy" ∧ ¬hasCy then [PCAction.cy cyDelay]
  else [PCAction.send state]

/-- Events performed when the dispatcher's consumer later awaits a queued
`Powerchange` action. -/
inductive ExecEv where
  | setOutlet (dev outlet state : String)
  | sleepFor (d : Nat)
deriving DecidableEq, Repr

/-- `Powerchange.__cy`, run inside the dispatcher's consumer:
`await self.__send('of')`, `await asyncio.sleep(delay)`,
`await self.__send('on')`, all within the one queued action. -/
def powerchange_cy_run (dev outlet : String) (delay : Nat) : List ExecEv :=
  [ExecEv.setOutlet dev outlet "of", ExecEv.sleepFor delay,
   ExecEv.setOutlet dev outlet "on"]

/- ----------------------------------------------------------------- -/
/- Section 6: healthcheck submission                                 -/
/-   Rs232ToPdu.healthcheck_enqueue (rs232topdu.py), the startup loop  -/
/-   of rs232_to_pdu/__main__.py, Healthcheck (healthcheck.py)         -/
/- ----------------------------------------------------------------- -/

/-- One healthcheck GET submission: the probed device, the probed outlet
and the `high_prio` flag passed to the queue. -/
structure HealthcheckSub where
  deviceName : String
  outlet : String
  highPrio : Bool
deriving DecidableEq, Repr

/-- `Rs232ToPdu.healthcheck_enqueue`: on each firing, for every entry of
`self.devices` (a name → device mapping, here the list of
(name, outlets) pairs in iteration order) enqueue one GET of
`device.outlets[0]` with `high_prio = True`. -/
def healthcheck_enqueue (devices : List (String × List String)) : List HealthcheckSub :=
  devices.map (fun d => { deviceName := d.1, outlet := d.2.headD "", highPrio := true })

/-- The healthcheck startup loop of rs232_to_pdu/__main__.py:
`for device in devices.values(): Healthcheck(...); break` — the body ends
with an unconditional `break`, so a `Healthcheck` is created only for the
first device, and only that device is ever probed. -/
def main_healthcheck_devices (devices : List (String × List String)) : List String :=
  match devices with
  | [] => []
  | d :: _ => [d.1]

/- ----------------------------------------------------------------- -/
/- Section 7: SNMP v1/v2c authentication and request construction    -/
/-   transport/snmp.py, device.py, rs232tripplite.py                  -/
/- ----------------------------------------------------------------- -/

/-- A pysnmp `CommunityData(community, mpModel=…)` value. -/
structure CommunityData where
  community : String
  mpModel : Nat
deriving DecidableEq, Repr

/-- `TransportSnmpV1V2.__init__` (transport/snmp.py): the read
authentication handed to `TransportSnmp` is
`CommunityData(public_community, mpModel = 0 if version == 1 else 1)`;
`TransportSnmp.get_outlet_state` performs every GET with it. -/
def transport_v1v2_read_auth (version : Nat) (publicCommunity privateCommunity : String) :
    CommunityData :=
  { community := publicCommunity, mpModel := if version = 1 then 0 else 1 }

/-- `TransportSnmpV1V2.__init__`: the write authentication is
`CommunityData(private_community, mpModel = 0 if version == 1 else 1)`;
`TransportSnmp.set_outlet_state` performs every SET with it. -/
def transport_v1v2_write_auth (version : Nat) (publicCommunity privateCommunity : String) :
    CommunityData :=
  { community := privateCommunity, mpModel := if version = 1 then 0 else 1 }

/-- `SnmpDeviceV1V2.get_outlet_state` (device.py): builds
`CommunityData(self.public_community, mpModel = 0 if self.snmp_version == 1 else 1)`
for the GET. -/
def device_v1v2_get_auth (snmpVersion : Nat) (publicCommunity privateCommunity : String) :
    CommunityData :=
  { community := publicCommunity, mpModel := if snmpVersion = 1 then 0 else 1 }

/-- `SnmpDeviceV1V2.set_outlet_state` (device.py): the SET also builds
`CommunityData(self.public_community, …)` — the stored
`self.private_community` is never used anywhere in the class. -/
def device_v1v2_set_auth (snmpVersion : Nat) (publicCommunity privateCommunity : String) :
    CommunityData :=
  { community := publicCommunity, mpModel := if snmpVersion = 1 then 0 else 1 }

/-- Which `snmp` sub-key is present in a device's config. -/
inductive SnmpVariant where
  | v1
  | v2
  | v3
deriving DecidableEq, Repr

/-- `create_device_from_config_dict` (device.py): the `snmp_version`
argument passed to the constructed device — the literal `1` in the `v1`
branch, the literal `1` again in the `v2` branch, and `1` in the `v3`
branch. -/
def create_device_snmp_version : SnmpVariant → Nat
  | SnmpVariant.v1 => 1
  | SnmpVariant.v2 => 1
  | SnmpVariant.v3 => 1

/-- The retry block of the configuration (rs232tripplite.py `self.retry`). -/
structure RetrySettings where
  maxAttempts : Nat
  delay : Nat
  timeout : Nat

/-- Whether a queued command is a GET or a SET. -/
inductive CmdKind where
  | get
  | set
deriving DecidableEq, Repr

/-- The construction parameters of one command placed into the
`DeviceCmdRunner` queue by rs232tripplite.py. -/
structure QueuedCommand where
  kind : CmdKind
  timeout : Nat
  maxAttempts : Nat
  delay : Nat
  highPrio : Bool
deriving DecidableEq, Repr

/-- `Rs2323ToTripplite.add_healthcheck_to_queue`: for every device, build
`GetCommandWithRetry(device, device.outlets[0], self.retry['timeout'], 1, 0,
self.cmd_counter)` — max_attempts is the literal `1` and delay the literal
`0` — and put it into the queue with `high_prio = True`. -/
def add_healthcheck_to_queue (retry : RetrySettings) (devices : List String) :
    List QueuedCommand :=
  devices.map (fun _ =>
    { kind := CmdKind.get, timeout := retry.timeout, maxAttempts := 1,
      delay := 0, highPrio := true })

/-- `Rs2323ToTripplite.add_power_change_to_queue`: builds
`SetCommandWithRetry(device, outlet, state, self.retry['timeout'],
self.retry['max_attempts'], self.retry['delay'], self.cmd_counter)` and
puts it into the queue with the default `high_prio = False`. -/
def add_power_change_to_queue (retry : RetrySettings) : QueuedCommand :=
  { kind := CmdKind.set, timeout := retry.timeout,
    maxAttempts := retry.maxAttempts, delay := retry.delay, highPrio := false }

/- ----------------------------------------------------------------- -/
/- Theorems                                                          -/
/- ----------------------------------------------------------------- -/

/-- Helper for claim C4: `send_command` contains no sleep call at all, so
no trace of `send_command_from` ever carries a sleep event. -/
theorem send_command_from_no_sleep (f : Nat → Outcome) (d : Nat) :
    ∀ (n i : Nat), SendCmdEv.sleep d ∉ (send_command_from f i n).2.2 := by
  intro n
  induction n with
  | zero => intro i; simp [send_command_from]
  | succ n ih =>
    intro i
    cases h : f i <;> simp [send_command_from, h] <;> exact ih (i + 1)

/-- Claim C1: for every completed SNMP command attempt, the outcome is
classified as success iff the engine reports no error AND the PDU reports
no status error.  The transport layer (`get_outlet_state` /
`set_outlet_state`) does compute `ok` exactly this way, but
`BaseDeviceCmd.run_cmd` tests `not err_indicator or err_status`: at the
failing input (engine error absent, PDU status error present) it invokes
the success handler and returns True even though the claim requires the
failure handler. -/
theorem runCmd_pdu_error_classified_success :
    (∀ e s : Bool, transport_ok ⟨e, s⟩ = true ↔ (e = false ∧ s = false))
    ∧ runCmd 0 1 (fun _ => Attempt.result ⟨false, true⟩) = (true, [RunCmdEv.hSuccess])
    ∧ transport_ok ⟨false, true⟩ = false
    ∧ runCmdSuccessTest ⟨true, true⟩ = true := by
  refine ⟨by decide, by decide, by decide, by decide⟩

/-- Claim C4: the claim requires the inter-attempt sleep exactly between
consecutive attempts.  At the failing inputs: `run_cmd` with
`max_attempts = 1` and one failed attempt sleeps `delay` seconds after the
final attempt, before invoking the max-attempts handler; and
`send_command` with `max_attempts = 2`, a configured delay, and two failed
attempts performs no sleep at all between them (its trace never contains a
sleep event for any delay). -/
theorem retry_sleep_placement_divergence :
    runCmd 7 1 (fun _ => Attempt.result ⟨true, false⟩)
      = (false, [RunCmdEv.hCmdError, RunCmdEv.sleep 7, RunCmdEv.hMaxAttempts])
    ∧ send_command 2 (fun _ => Outcome.fail)
      = (false, 2, [SendCmdEv.hFailure, SendCmdEv.hFailure, SendCmdEv.hMaxReached])
    ∧ (∀ (m : Nat) (f : Nat → Outcome) (d : Nat),
        SendCmdEv.sleep d ∉ (send_command m f).2.2) := by
  refine ⟨by decide, by decide, ?_⟩
  intro m f d
  exact send_command_from_no_sleep f d m 0

/-- Claim C5: the parser accepts numeric tokens up to 256 inclusive — so
`parse("on 256 1\r")` succeeds carrying the value 256 — but at the failing
input `"on 257 1\r"` the over-256 branch of `search_uint8` evaluates the
absent attribute `text_post` in its logging call and raises
`AttributeError`, never reaching the documented `raise ParseError`. -/
theorem search_uint8_overflow_attribute_error :
    parse_kvm_sequence "on 256 1\r".data = Except.ok (['o','n'], some 256, some 1)
    ∧ parse_kvm_sequence "on 257 1\r".data
        = Except.error (PyError.attributeError "text_post")
    ∧ search_uint8 "256".data 0 = Except.ok (256, 3)
    ∧ search_uint8 "257".data 0 = Except.error (PyError.attributeError "text_post") :=
  ⟨rfl, rfl, rfl, rfl⟩

/-- Claim C6: the claim requires that after a read-drain cycle exactly the
bytes after the last `\r` remain buffered.  At the failing inputs,
`serial_reader` (rs232_to_pdu/__main__.py) keeps `buffer.data[:chars_read]`:
draining `"on 1 1"` without a terminator empties the buffer (the six bytes
are lost, though no submission is made), and draining
`"on 1 1\rof 2 2\r"` retains the whole fourteen bytes after producing the
two submissions, so the very next drain cycle produces the same two
submissions again.  `serial_conn_read` (rs232topdu.py) implements the
claimed behavior: it retains the unterminated tail and empties the buffer
after handing both segments to the parser. -/
theorem serial_reader_buffer_retention_divergence :
    serial_reader_cycle [] "on 1 1".data = Except.ok ([], [])
    ∧ serial_reader_cycle [] "on 1 1\rof 2 2\r".data
        = Except.ok ("on 1 1\rof 2 2\r".data,
            [⟨"on".data, 1, 1⟩, ⟨"of".data, 2, 2⟩])
    ∧ serial_reader_cycle "on 1 1\rof 2 2\r".data []
        = Except.ok ("on 1 1\rof 2 2\r".data,
            [⟨"on".data, 1, 1⟩, ⟨"of".data, 2, 2⟩])
    ∧ serial_conn_read_cycle [] "on 1 1".data = Except.ok ("on 1 1".data, [])
    ∧ serial_conn_read_cycle [] "on 1 1\rof 2 2\r".data
        = Except.ok ([], [⟨"on".data, 1, 1⟩, ⟨"of".data, 2, 2⟩]) :=
  ⟨rfl, rfl, rfl, rfl, rfl⟩

/-- Claim C7 counterexample: for a `cy` command on a device whose
`power_states` lacks `'cy'`, the claim requires an OFF power-change
submission on the submission path.  In the `Powerchange` implementation
(rs232_to_pdu/powerchange.py) the submission path performs exactly one
enqueue — of the composite `__cy` action — and no `'of'` submission (and
no submission-path sleep) occurs. -/
theorem powerchange_cy_no_submission_path_pair :
    powerchange_submit "cy" false 3 = [PCAction.cy 3]
    ∧ PCAction.send "of" ∉ powerchange_submit "cy" false 3
    ∧ (powerchange_submit "cy" false 3).length = 1 := by
  refine ⟨?_, ?_, ?_⟩ <;> simp [powerchange_submit]

/-- Claim C7 (amended): in `Rs232ToPdu.outlet_manual_toggle` (rs232topdu.py)
a synthesized cycle submits exactly one low-priority OFF, cooperatively
sleeps `toggle_delay` on the submission path, then submits exactly one
low-priority ON, both for the same device and outlet with OFF strictly
first; in the `Powerchange` implementation (rs232_to_pdu/powerchange.py)
the cycle is instead one queued action whose execution — inside the
dispatcher's consumer, so no other queued submission can interleave —
performs the OFF set, sleeps `cy_delay`, then performs the ON set, same
device and outlet, OFF strictly first. -/
theorem cycle_synthesis_amended (ctx : SubCtx) (dev outlet : String) (d : Nat) :
    (outlet_manual_toggle ctx dev outlet d).events
      = ctx.events ++ [TogEv.enq dev outlet "of" false, TogEv.sleep d,
                       TogEv.enq dev outlet "on" false]
    ∧ powerchange_submit "cy" false d = [PCAction.cy d]
    ∧ powerchange_cy_run dev outlet d
      = [ExecEv.setOutlet dev outlet "of", ExecEv.sleepFor d,
         ExecEv.setOutlet dev outlet "on"] := by
  refine ⟨?_, by simp [powerchange_submit], rfl⟩
  simp [outlet_manual_toggle, power_change_enqueue, submission_sleep]

/-- Claim C8: the claim requires one high-priority GET per configured
device on every healthcheck firing.  `Rs232ToPdu.healthcheck_enqueue`
(rs232topdu.py) does submit one high-priority GET of the first outlet for
every device, but at the failing input (two configured devices) the
startup loop of rs232_to_pdu/__main__.py creates a `Healthcheck` only for
the first device — its loop body ends in an unconditional `break` — so
device `"002"` is never probed; the loop can never cover more than one
device. -/
theorem healthcheck_first_device_only :
    main_healthcheck_devices [("001", ["o1"]), ("002", ["o2"])] = ["001"]
    ∧ "002" ∉ main_healthcheck_devices [("001", ["o1"]), ("002", ["o2"])]
    ∧ healthcheck_enqueue [("001", ["o1"]), ("002", ["o2"])]
        = [⟨"001", "o1", true⟩, ⟨"002", "o2", true⟩]
    ∧ (∀ devices : List (String × List String),
        (main_healthcheck_devices devices).length ≤ 1) := by
  refine ⟨rfl, by decide, rfl, ?_⟩
  intro devices
  cases devices <;> simp [main_healthcheck_devices]

/-- Claim C9: the claim requires SETs to authenticate with the write
community and v2c to use `mpModel = 1`.  The transport layer
(`TransportSnmpV1V2`, transport/snmp.py) satisfies both: GETs carry the
read community, SETs the write community, `mpModel` is 0 for v1 and 1
otherwise.  At the failing input (a `v2`-configured device with read
community `"readC"` and write community `"writeC"` performing a SET),
`SnmpDeviceV1V2.set_outlet_state` (device.py) builds its `CommunityData`
from `public_community`, and `create_device_from_config_dict` passes
`snmp_version = 1` in its `v2` branch, so the SET goes out with the READ
community at `mpModel = 0`. -/
theorem snmp_v1v2_set_community_divergence :
    device_v1v2_set_auth (create_device_snmp_version SnmpVariant.v2) "readC" "writeC"
      = { community := "readC", mpModel := 0 }
    ∧ transport_v1v2_read_auth 1 "readC" "writeC" = { community := "readC", mpModel := 0 }
    ∧ transport_v1v2_read_auth 2 "readC" "writeC" = { community := "readC", mpModel := 1 }
    ∧ transport_v1v2_write_auth 1 "readC" "writeC" = { community := "writeC", mpModel := 0 }
    ∧ transport_v1v2_write_auth 2 "readC" "writeC" = { community := "writeC", mpModel := 1 } :=
  ⟨rfl, rfl, rfl, rfl, rfl⟩

/-- Claim C10: every healthcheck GET placed into the queue by
`add_healthcheck_to_queue` is built with `max_attempts = 1` and delay 0 (and
submitted at high priority, one per device), so `send_command` under
`max_attempts = 1` issues exactly one transport call whatever the outcome —
a failed or timed-out probe is never retried; every power-change SET from
`add_power_change_to_queue` carries the configured retry settings. -/
theorem request_retry_configuration (retry : RetrySettings) (devices : List String) :
    ((add_healthcheck_to_queue retry devices).all
        (fun c => c.kind == CmdKind.get && c.maxAttempts == 1
          && c.delay == 0 && c.highPrio)) = true
    ∧ (add_healthcheck_to_queue retry devices).length = devices.length
    ∧ add_power_change_to_queue retry
        = { kind := CmdKind.set, timeout := retry.timeout,
            maxAttempts := retry.maxAttempts, delay := retry.delay,
            highPrio := false }
    ∧ (∀ f : Nat → Outcome, (send_command 1 f).2.1 = 1) := by
  refine ⟨?_, ?_, rfl, ?_⟩
  · simp [add_healthcheck_to_queue, List.all_eq_true]
  · simp [add_healthcheck_to_queue]
  · intro f
    cases h : f 0 <;> simp [send_command, send_command_from, h]

/-- `pop_min` of a nonempty queue always yields an entry. -/
theorem pop_min_eq_none_iff {α : Type} (q : List (Int × α)) :
    pop_min q = none ↔ q = [] := by
  induction q with
  | nil => simp [pop_min]
  | cons e rest ih =>
    simp only [pop_min]
    cases h : pop_min rest with
    | none => simp
    | some mr =>
      obtain ⟨m, rest'⟩ := mr
      by_cases hle : e.1 ≤ m.1 <;> simp [hle]

/-- The entry popped and every remaining entry come from the queue. -/
theorem pop_min_mem {α : Type} :
    ∀ (q : List (Int × α)) m rest, pop_min q = some (m, rest) →
      m ∈ q ∧ ∀ p ∈ rest, p ∈ q := by
  intro q
  induction q with
  | nil => intro m rest h; simp [pop_min] at h
  | cons e q' ih =>
    intro m rest h
    simp only [pop_min] at h
    cases hq : pop_min q' with
    | none =>
      rw [hq] at h
      obtain ⟨rfl, rfl⟩ : e = m ∧ ([] : List (Int × α)) = rest := by
        constructor <;> cases h <;> rfl
      exact ⟨List.mem_cons_self e q', by simp⟩
    | some mr =>
      obtain ⟨m0, rest0⟩ := mr
      rw [hq] at h
      obtain ⟨hm0, hsub⟩ := ih m0 rest0 hq
      by_cases hle : e.1 ≤ m0.1
      · simp only [hle, if_pos] at h
        obtain ⟨rfl, rfl⟩ : e = m ∧ q' = rest := by
          constructor <;> cases h <;> rfl
        exact ⟨List.mem_cons_self e q', fun p hp => List.mem_cons_of_mem e hp⟩
      · simp only [hle, if_neg, not_false_eq_true] at h
        obtain ⟨rfl, rfl⟩ : m0 = m ∧ e :: rest0 = rest := by
          constructor <;> cases h <;> rfl
        refine ⟨List.mem_cons_of_mem e hm0, fun p hp => ?_⟩
        rcases List.mem_cons.mp hp with hpe | hp0
        · exact hpe ▸ List.mem_cons_self e q'
        · exact List.mem_cons_of_mem e (hsub p hp0)

/-- Popping removes exactly one entry. -/
theorem pop_min_length {α : Type} :
    ∀ (q : List (Int × α)) m rest, pop_min q = some (m, rest) →
      rest.length + 1 = q.length := by
  intro q
  induction q with
  | nil => intro m rest h; simp [pop_min] at h
  | cons e q' ih =>
    intro m rest h
    simp only [pop_min] at h
    cases hq : pop_min q' with
    | none =>
      rw [hq] at h
      obtain rfl : ([] : List (Int × α)) = rest := by cases h; rfl
      have : q' = [] := (pop_min_eq_none_iff q').mp hq
      simp [this]
    | some mr =>
      obtain ⟨m0, rest0⟩ := mr
      rw [hq] at h
      have hlen := ih m0 rest0 hq
      by_cases hle : e.1 ≤ m0.1
      · simp only [hle, if_pos] at h
        obtain rfl : q' = rest := by cases h; rfl
        simp
      · simp only [hle, if_neg, not_false_eq_true] at h
        obtain rfl : e :: rest0 = rest := by cases h; rfl
        simp [← hlen]

/-- Appending an entry whose key is strictly below every key in the queue:
that entry is the one `pop_min` yields, with the old queue as remainder. -/
theorem pop_min_snoc_min {α : Type} (k : Int) (x : α) :
    ∀ (q : List (Int × α)), (∀ p ∈ q, k < p.1) →
      pop_min (q ++ [(k, x)]) = some ((k, x), q) := by
  intro q
  induction q with
  | nil => intro _; simp [pop_min]
  | cons e q' ih =>
    intro hlt
    have hk : k < e.1 := hlt e (List.mem_cons_self e q')
    have ih' := ih (fun p hp => hlt p (List.mem_cons_of_mem e hp))
    simp only [List.cons_append, pop_min, List.append_eq]
    rw [ih']
    have : ¬ e.1 ≤ k := by omega
    simp [this]

/-- Appending an entry whose key is strictly above every key in the queue
does not change which entry `pop_min` yields; the appended entry stays at
the end of the remainder. -/
theorem pop_min_snoc_max {α : Type} (k : Int) (x : α) :
    ∀ (q : List (Int × α)) m rest, (∀ p ∈ q, p.1 < k) →
      pop_min q = some (m, rest) →
      pop_min (q ++ [(k, x)]) = some (m, rest ++ [(k, x)]) := by
  intro q
  induction q with
  | nil => intro m rest _ h; simp [pop_min] at h
  | cons e q' ih =>
    intro m rest hlt h
    have he : e.1 < k := hlt e (List.mem_cons_self e q')
    simp only [pop_min] at h
    cases hq : pop_min q' with
    | none =>
      rw [hq] at h
      obtain ⟨rfl, rfl⟩ : e = m ∧ ([] : List (Int × α)) = rest := by
        constructor <;> cases h <;> rfl
      have hq' : q' = [] := (pop_min_eq_none_iff q').mp hq
      subst hq'
      simp only [List.cons_append, List.nil_append, pop_min]
      have : e.1 ≤ k := by omega
      simp [this]
    | some mr =>
      obtain ⟨m0, rest0⟩ := mr
      rw [hq] at h
      have ih' := ih m0 rest0 (fun p hp => hlt p (List.mem_cons_of_mem e hp)) hq
      by_cases hle : e.1 ≤ m0.1
      · simp only [hle, if_pos] at h
        obtain ⟨rfl, rfl⟩ : e = m ∧ q' = rest := by
          constructor <;> cases h <;> rfl
        simp [List.cons_append, pop_min, ih', hle]
      · simp only [hle, if_neg, not_false_eq_true] at h
        obtain ⟨rfl, rfl⟩ : m0 = m ∧ e :: rest0 = rest := by
          constructor <;> cases h <;> rfl
        simp [List.cons_append, pop_min, ih', hle]

/-- A newly enqueued entry whose key undercuts every present key runs
first: one drain step pops it and leaves the old queue. -/
theorem drain_fuel_snoc_min {α : Type} (k : Int) (x : α) (n : Nat)
    (q : List (Int × α)) (hlt : ∀ p ∈ q, k < p.1) :
    drain_fuel (n + 1) (q ++ [(k, x)]) = x :: drain_fuel n q := by
  simp only [drain_fuel]
  rw [pop_min_snoc_min k x q hlt]

/-- A newly enqueued entry whose key exceeds every present key runs last:
the old queue drains first, then the new entry. -/
theorem drain_fuel_snoc_max {α : Type} (k : Int) (x : α) :
    ∀ (n : Nat) (q : List (Int × α)), (∀ p ∈ q, p.1 < k) → q.length ≤ n →
      drain_fuel (n + 1) (q ++ [(k, x)]) = drain_fuel n q ++ [x] := by
  intro n
  induction n with
  | zero =>
    intro q _ hlen
    obtain rfl : q = [] := List.length_eq_zero.mp (Nat.le_zero.mp hlen)
    simp [drain_fuel, pop_min]
  | succ n ih =>
    intro q hlt hlen
    cases hq : pop_min q with
    | none =>
      obtain rfl : q = [] := (pop_min_eq_none_iff q).mp hq
      simp [drain_fuel, pop_min]
    | some mr =>
      obtain ⟨m, rest⟩ := mr
      have hmem := pop_min_mem q m rest hq
      have hrest_lt : ∀ p ∈ rest, p.1 < k := fun p hp => hlt p (hmem.2 p hp)
      have hrest_len : rest.length ≤ n := by
        have := pop_min_length q m rest hq
        omega
      have hpop := pop_min_snoc_max k x q m rest hlt hq
      calc drain_fuel (n + 1 + 1) (q ++ [(k, x)])
          = m.2 :: drain_fuel (n + 1) (rest ++ [(k, x)]) := by
            simp only [drain_fuel]; rw [hpop]
        _ = m.2 :: (drain_fuel n rest ++ [x]) := by rw [ih rest hrest_lt hrest_len]
        _ = (m.2 :: drain_fuel n rest) ++ [x] := by simp
        _ = drain_fuel (n + 1) q ++ [x] := by
            simp only [drain_fuel]; rw [hq]

/-- Every key in a `QueueRunner` queue lies strictly between
`-prio_counter` and `prio_counter`: entry number `i` carries key `i` or
`-i`, and `i` is below the counter. -/
def QInv {α : Type} (s : QueueState α) : Prop :=
  ∀ p ∈ s.queue, -(s.prioCounter : Int) < p.1 ∧ p.1 < (s.prioCounter : Int)

/-- `QueueRunner.enqueue` preserves the key-bound invariant. -/
theorem qr_enqueue_qinv {α : Type} (s : QueueState α) (x : α) (hp : Bool)
    (hinv : QInv s) : QInv (qr_enqueue s x hp) := by
  intro p hmem
  simp only [qr_enqueue, List.mem_append, List.mem_singleton] at hmem
  simp only [qr_enqueue]
  rcases hmem with hold | rfl
  · have := hinv p hold
    push_cast
    omega
  · cases hp <;> simp <;> omega

/-- Consumption order of a whole submission batch: the high-priority items
newest first, then whatever was already queued, then the low-priority items
oldest first. -/
theorem drain_qr_enqueue_all {α : Type} :
    ∀ (subs : List (α × Bool)) (s : QueueState α), QInv s →
      drain (qr_enqueue_all s subs).queue
        = (high_subs subs).reverse ++ drain s.queue ++ low_subs subs := by
  intro subs
  induction subs with
  | nil => intro s _; simp [qr_enqueue_all, high_subs, low_subs]
  | cons sub rest ih =>
    intro s hinv
    obtain ⟨x, hp⟩ := sub
    have step : qr_enqueue_all s ((x, hp) :: rest) = qr_enqueue_all (qr_enqueue s x hp) rest := rfl
    rw [step, ih (qr_enqueue s x hp) (qr_enqueue_qinv s x hp hinv)]
    have hqueue : (qr_enqueue s x hp).queue
        = s.queue ++ [((if hp then -(s.prioCounter : Int) else (s.prioCounter : Int)), x)] := rfl
    cases hp
    · have hlt : ∀ p ∈ s.queue, p.1 < (s.prioCounter : Int) := fun p hmem => (hinv p hmem).2
      have hdrain : drain (qr_enqueue s x false).queue = drain s.queue ++ [x] := by
        rw [hqueue]
        simp only [if_neg Bool.false_ne_true, drain, List.length_append, List.length_singleton]
        exact drain_fuel_snoc_max (s.prioCounter : Int) x s.queue.length s.queue hlt le_rfl
      rw [hdrain]
      simp [high_subs, low_subs, List.filter_cons]
    · have hlt : ∀ p ∈ s.queue, -(s.prioCounter : Int) < p.1 := fun p hmem => (hinv p hmem).1
      have hdrain : drain (qr_enqueue s x true).queue = x :: drain s.queue := by
        rw [hqueue]
        simp only [if_pos, drain, List.length_append, List.length_singleton]
        exact drain_fuel_snoc_min (-(s.prioCounter : Int)) x s.queue.length s.queue hlt
      rw [hdrain]
      simp [high_subs, low_subs, List.filter_cons]

/-- Claim C2: for every submission sequence to the `QueueRunner`, the
consumer pops all high-priority items before any low-priority item, the
high-priority items in reverse submission order (newest first), and the
low-priority items in submission order (oldest first); concretely,
submitting A low, B high, C low, D high (as 0..3) is consumed as
D, B, A, C.  (The embedding stores key `±counter` and then increments, as
the source does; the consumption order is the one the claim states.) -/
theorem queue_runner_consumption_order :
    (∀ subs : List (Nat × Bool),
      drain (qr_enqueue_all (QueueState.mk 0 []) subs).queue
        = (high_subs subs).reverse ++ low_subs subs)
    ∧ drain (qr_enqueue_all (QueueState.mk 0 [])
        [(0, false), (1, true), (2, false), (3, true)]).queue = [3, 1, 0, 2] := by
  constructor
  · intro subs
    have hinv : QInv (QueueState.mk 0 ([] : List (Int × Nat))) := by
      intro p hmem
      simp at hmem
    have := drain_qr_enqueue_all subs (QueueState.mk 0 []) hinv
    simpa [drain, drain_fuel] using this
  · decide

/-- Helper for claim C3: when every one of the `n` attempts starting at
index `i` fails or times out, `send_command_from` returns false after
issuing exactly `n` transport calls. -/
theorem send_command_from_all_fail (f : Nat → Outcome) :
    ∀ (n i : Nat), (∀ j, j < n → f (i + j) ≠ Outcome.ok) →
      (send_command_from f i n).1 = false ∧ (send_command_from f i n).2.1 = n := by
  intro n
  induction n with
  | zero => intro i _; simp [send_command_from]
  | succ n ih =>
    intro i hfail
    have h0 : f i ≠ Outcome.ok := by
      have := hfail 0 (Nat.succ_pos n)
      simpa using this
    have hrest : ∀ j, j < n → f (i + 1 + j) ≠ Outcome.ok := by
      intro j hj
      have := hfail (j + 1) (by omega)
      have harith : i + (j + 1) = i + 1 + j := by omega
      rwa [harith] at this
    have ihr := ih (i + 1) hrest
    cases h : f i with
    | ok => exact absurd h h0
    | fail => simp [send_command_from, h, ihr.1, ihr.2]
    | timeout => simp [send_command_from, h, ihr.1, ihr.2]

/-- Helper for claim C3: when the first ok outcome among the attempts
starting at index `i` occurs at offset `t < n`, `send_command_from`
returns true after issuing exactly `t + 1` transport calls. -/
theorem send_command_from_first_ok (f : Nat → Outcome) :
    ∀ (t n i : Nat), t < n → f (i + t) = Outcome.ok →
      (∀ j, j < t → f (i + j) ≠ Outcome.ok) →
      (send_command_from f i n).1 = true ∧ (send_command_from f i n).2.1 = t + 1 := by
  intro t
  induction t with
  | zero =>
    intro n i htn hok _
    obtain ⟨n', rfl⟩ : ∃ n', n = n' + 1 := ⟨n - 1, by omega⟩
    have h0 : f i = Outcome.ok := by simpa using hok
    simp [send_command_from, h0]
  | succ t ih =>
    intro n i htn hok hpre
    obtain ⟨n', rfl⟩ : ∃ n', n = n' + 1 := ⟨n - 1, by omega⟩
    have h0 : f i ≠ Outcome.ok := by
      have := hpre 0 (Nat.succ_pos t)
      simpa using this
    have hok' : f (i + 1 + t) = Outcome.ok := by
      have harith : i + (t + 1) = i + 1 + t := by omega
      rwa [harith] at hok
    have hpre' : ∀ j, j < t → f (i + 1 + j) ≠ Outcome.ok := by
      intro j hj
      have := hpre (j + 1) (by omega)
      have harith : i + (j + 1) = i + 1 + j := by omega
      rwa [harith] at this
    have ihr := ih n' (i + 1) (by omega) hok' hpre'
    cases h : f i with
    | ok => exact absurd h h0
    | fail => simp [send_command_from, h, ihr.1, ihr.2]
    | timeout => simp [send_command_from, h, ihr.1, ihr.2]

/-- Claim C3: for a retrying request with `max_attempts ≥ 1`
(`CommandWithRetry.send_command`): if the transport reports ok on attempt
`k ≤ max_attempts` (1-based) and on no earlier attempt, exactly `k`
transport calls are issued and the request returns true; if every attempt
fails or times out, exactly `max_attempts` transport calls are issued and
it returns false. -/
theorem send_command_attempt_bounds (m : Nat) (f : Nat → Outcome) (hm : 1 ≤ m) :
    (∀ k, 1 ≤ k → k ≤ m → f (k - 1) = Outcome.ok →
      (∀ i, i < k - 1 → f i ≠ Outcome.ok) →
      (send_command m f).1 = true ∧ (send_command m f).2.1 = k)
    ∧ ((∀ i, i < m → f i ≠ Outcome.ok) →
      (send_command m f).1 = false ∧ (send_command m f).2.1 = m) := by
  constructor
  · intro k hk1 hkm hok hpre
    have h := send_command_from_first_ok f (k - 1) m 0 (by omega)
      (by simpa using hok) (fun j hj => by simpa using hpre j hj)
    have harith : k - 1 + 1 = k := by omega
    rw [harith] at h
    exact h
  · intro hfail
    exact send_command_from_all_fail f m 0 (fun j hj => by simpa using hfail j hj)

/-- Witness for claim C3: with `max_attempts = 3` and outcomes
fail, ok, fail, …, the request returns true after exactly 2 transport
calls. -/
theorem send_command_attempt_bounds_witness :
    (send_command 3 (fun i => if i = 1 then Outcome.ok else Outcome.fail)).1 = true
    ∧ (send_command 3 (fun i => if i = 1 then Outcome.ok else Outcome.fail)).2.1 = 2 :=
  (send_command_attempt_bounds 3 (fun i => if i = 1 then Outcome.ok else Outcome.fail)
      (by decide)).1 2 (by decide) (by decide) (by decide)
    (fun i hi => by
      have hi0 : i = 0 := by omega
      subst hi0
      decide)
